import Mathlib

/-!
Shallow embedding of the `verbadocs/commit-hook` repository
(`scripts/process-logs.py`, `scripts/merge-db.py`, `scripts/monitor.py`).

Strings are modelled as `List Char` in the log-extractor part (Python `str`);
Python `None` and the empty string are both falsy and are both modelled by `[]`.
Character classes (`\s`, `\d`) are modelled by their ASCII meaning.
-/

/-- A line of the log stream (a Python `str` with no newline). -/
abbrev Line := List Char

/-- Python regex class `\s`, restricted to ASCII whitespace. -/
def isSpace (c : Char) : Bool :=
  c = ' ' || c = '\t' || c = '\n' || c = '\r' || c = '\x0b' || c = '\x0c'

/-- Python `line.strip() == ''`: the line holds only whitespace. -/
def isBlank (l : Line) : Bool := l.all isSpace

/-- Python `re.match(r'^\[([^\]]+)\] User Prompt: (.+)$', line)` in
`_parse_and_store_changes` (process-logs.py line 108): on success returns the
two groups (timestamp text, prompt text), both non-empty. -/
def parsePromptHeader (l : Line) : Option (Line × Line) :=
  match l with
  | '[' :: rest =>
    let ts := rest.takeWhile (fun c => c ≠ ']')
    match rest.dropWhile (fun c => c ≠ ']') with
    | ']' :: tail =>
      if ts.isEmpty then none
      else if (" User Prompt: ".toList).isPrefixOf tail then
        let p := tail.drop (" User Prompt: ".toList).length
        if p.isEmpty then none else some (ts, p)
      else none
    | _ => none
  | _ => none

/-- Python `re.match(r'^\[([^\]]+)\] User Prompt:', line)` — the unanchored
prompt-header prefix test used in the content-collection conditions
(process-logs.py lines 164 and 170). -/
def isPromptPrefix (l : Line) : Bool :=
  match l with
  | '[' :: rest =>
    let ts := rest.takeWhile (fun c => c ≠ ']')
    match rest.dropWhile (fun c => c ≠ ']') with
    | ']' :: tail => !ts.isEmpty && (" User Prompt:".toList).isPrefixOf tail
    | _ => false
  | _ => false

/-- Python `re.match(r'^FILE: (.+)$', line)` (process-logs.py line 132):
on success returns the non-empty filename group. -/
def parseFileHeader (l : Line) : Option Line :=
  if ("FILE: ".toList).isPrefixOf l then
    let name := l.drop ("FILE: ".toList).length
    if name.isEmpty then none else some name
  else none

/-- Python `re.match(r'^-+$', line)` (process-logs.py line 157): a non-empty
line consisting only of dashes. -/
def isSeparator (l : Line) : Bool := !l.isEmpty && l.all (fun c => c = '-')

/-- Python `re.match(r'^\s*\d+\s*[+→-]\s+', line)` (process-logs.py line 163):
optional whitespace, at least one digit, optional whitespace, one of the three
change markers, then at least one whitespace character. -/
def isDiffLine (l : Line) : Bool :=
  let l1 := l.dropWhile isSpace
  let digits := l1.takeWhile Char.isDigit
  let l2 := l1.dropWhile Char.isDigit
  let l3 := l2.dropWhile isSpace
  match l3 with
  | c :: rest =>
    !digits.isEmpty && (c = '+' || c = '→' || c = '-') &&
      (match rest with
       | d :: _ => isSpace d
       | [] => false)
  | [] => false

/-- Python `line.startswith('FILE:')` (process-logs.py lines 164, 170). -/
def startsWithFILE (l : Line) : Bool := ("FILE:".toList).isPrefixOf l

/-- The arguments of one `self._store_change(filename, file_change, timestamp,
prompt)` call made by `_parse_and_store_changes`. -/
structure StoreAttempt where
  filename : Line
  file_change : Line
  timestamp : Line
  prompt : Line
deriving Repr, DecidableEq

/-- The mutable locals of `_parse_and_store_changes` (process-logs.py lines
99-104). Python `None` is modelled by `[]` (both are falsy). -/
structure ParserState where
  current_timestamp : Line
  current_prompt : Line
  current_file : Line
  file_changes : List Line
  pending_file : Line
  pending_file_changes : List Line
deriving Repr, DecidableEq

/-- Initial parser state (all trackers unset). -/
def initState : ParserState := ⟨[], [], [], [], [], []⟩

/-- Python `'\n'.join(file_changes)`. -/
def joinNL (ls : List Line) : Line := List.intercalate ['\n'] ls

/-- The guard `current_file and file_changes and current_timestamp and
current_prompt` on every flush of the current file (process-logs.py lines
111, 135, 174). -/
def guardCurrent (s : ParserState) : Bool :=
  !s.current_file.isEmpty && !s.file_changes.isEmpty &&
    !s.current_timestamp.isEmpty && !s.current_prompt.isEmpty

/-- The guard `pending_file and pending_file_changes and current_timestamp and
current_prompt` on every flush of the pending file (process-logs.py lines
116, 140, 178). -/
def guardPending (s : ParserState) : Bool :=
  !s.pending_file.isEmpty && !s.pending_file_changes.isEmpty &&
    !s.current_timestamp.isEmpty && !s.current_prompt.isEmpty

/-- The `_store_change` call flushing the current file, when its guard holds. -/
def flushCurrent (s : ParserState) : List StoreAttempt :=
  if guardCurrent s then
    [⟨s.current_file, joinNL s.file_changes, s.current_timestamp, s.current_prompt⟩]
  else []

/-- The `_store_change` call flushing the pending file, when its guard holds. -/
def flushPending (s : ParserState) : List StoreAttempt :=
  if guardPending s then
    [⟨s.pending_file, joinNL s.pending_file_changes, s.current_timestamp, s.current_prompt⟩]
  else []

/-- The `changes_count += 1` paired with the current-file flush. -/
def countCurrent (s : ParserState) : Nat := if guardCurrent s then 1 else 0

/-- The `changes_count += 1` paired with the pending-file flush. -/
def countPending (s : ParserState) : Nat := if guardPending s then 1 else 0

/-- The first collection condition for the current file (process-logs.py lines
163-164): a diff-formatted line, or a non-blank line that is not itself a
`FILE:`-prefixed line, a separator or a prompt-header prefix. -/
def collectCondition (line : Line) : Bool :=
  isDiffLine line ||
    (!isBlank line && !startsWithFILE line &&
      !isSeparator line && !isPromptPrefix line)

/-- One iteration of the `for line in lines` loop of `_parse_and_store_changes`
(process-logs.py lines 106-171): returns the new state, the `_store_change`
calls made on this line, and the `changes_count` increment. -/
def step (s : ParserState) (line : Line) : ParserState × List StoreAttempt × Nat :=
  match parsePromptHeader line with
  | some (ts, p) =>
      (⟨ts, p, [], [], [], []⟩,
       flushCurrent s ++ flushPending s,
       countCurrent s + countPending s)
  | none =>
    match parseFileHeader line with
    | some newFile =>
        let s' :=
          if !s.current_file.isEmpty then
            { s with pending_file := newFile, pending_file_changes := [] }
          else
            { s with current_file := newFile, file_changes := [] }
        (s', flushCurrent s ++ flushPending s, countCurrent s + countPending s)
    | none =>
      if isSeparator line then (s, [], 0)
      else
        let s1 :=
          if !s.current_file.isEmpty then
            if collectCondition line then
              { s with file_changes := s.file_changes ++ [line] }
            else if isBlank line then
              { s with file_changes := s.file_changes ++ [line] }
            else s
          else s
        let s2 :=
          if !s1.pending_file.isEmpty && !isPromptPrefix line &&
             !startsWithFILE line && !isSeparator line then
            { s1 with pending_file_changes := s1.pending_file_changes ++ [line] }
          else s1
        (s2, [], 0)

/-- The whole `for line in lines` loop, accumulating `_store_change` calls and
`changes_count`. -/
def runLines : ParserState → List Line → ParserState × List StoreAttempt × Nat
  | s, [] => (s, [], 0)
  | s, l :: ls =>
      let r1 := step s l
      let r2 := runLines r1.1 ls
      (r2.1, r1.2.1 ++ r2.2.1, r1.2.2 + r2.2.2)

/-- `_parse_and_store_changes` on an already split line list: the loop followed
by the final flushes (process-logs.py lines 173-180); returns all
`_store_change` call attempts in order and the returned `changes_count`. -/
def parseLines (lines : List Line) : List StoreAttempt × Nat :=
  let r := runLines initState lines
  (r.2.1 ++ flushCurrent r.1 ++ flushPending r.1,
   r.2.2 + countCurrent r.1 + countPending r.1)

/-- Python `content.split('\n')` (process-logs.py line 95). -/
def splitNL (content : List Char) : List Line := content.splitOn '\n'

/-- `_parse_and_store_changes(content)`: the `_store_change` attempts made, in
order, over the split content. -/
def attemptsOf (content : List Char) : List StoreAttempt := (parseLines (splitNL content)).1

/-- The `changes_count` value returned by `_parse_and_store_changes(content)`. -/
def changes_count (content : List Char) : Nat := (parseLines (splitNL content)).2

/-- The validation in `_store_change` (process-logs.py lines 186-191): reject
the record if any of the four fields is empty (`if not all([...])`) or if the
content is blank after stripping; otherwise accept it. -/
def store_change (a : StoreAttempt) : Option StoreAttempt :=
  if a.filename.isEmpty || a.file_change.isEmpty ||
     a.timestamp.isEmpty || a.prompt.isEmpty then none
  else if isBlank a.file_change then none
  else some a

/-- The records actually emitted (accepted by `_store_change`) for a content
string: the attempts that survive validation, in order. -/
def storedChanges (content : List Char) : List StoreAttempt :=
  (attemptsOf content).filterMap store_change

/-- `hash_input = f"{filename}{file_change}{timestamp}"` (process-logs.py
line 194): plain concatenation with no separators. -/
def hash_input (filename file_change timestamp : Line) : Line :=
  filename ++ file_change ++ timestamp

/-- `change_hash = hashlib.sha256(hash_input.encode()).hexdigest()`
(process-logs.py line 195). SHA-256 is a deterministic function of its input
string and is modelled here as an injective one, so `change_hash` is
represented by the hash input itself: two records receive equal hashes exactly
when their concatenated inputs coincide. -/
def change_hash (filename file_change timestamp : Line) : Line :=
  hash_input filename file_change timestamp

/-- A row of the `code_changes` table (schema in monitor.py lines 23-33 and
merge-db.py lines 55-65). The stored timestamp is modelled by its source
string; datetime parsing (with fallback to the current time) is not modelled. -/
structure ChangeRecord where
  change_hash : String
  filename : String
  file_change : String
  timestamp : String
  prompt : String
  is_committed : Bool
  commit_hash : Option String
deriving Repr, DecidableEq

/-- The contents of one `code_changes` table, in scan order. -/
abbrev Store := List ChangeRecord

/-- The `change_hash` column of a store, in row order. -/
def hashes (s : Store) : List String := s.map ChangeRecord.change_hash

/-- `INSERT OR IGNORE INTO code_changes ...` against the `change_hash` primary
key (merge-db.py lines 80-86, process-logs.py lines 207-214): if a row with
the same hash exists the statement is a no-op reporting `false`; otherwise the
row is appended and the statement reports `true`. -/
def insertIfAbsent (s : Store) (r : ChangeRecord) : Store × Bool :=
  if r.change_hash ∈ hashes s then (s, false) else (s ++ [r], true)

/-- The `for record in all_records` insertion loop of `merge_databases`
(merge-db.py lines 78-86). -/
def insertAll (s : Store) (l : List ChangeRecord) : Store :=
  l.foldl (fun acc r => (insertIfAbsent acc r).1) s

/-- `merge_databases(base_path, current_path, other_path, output_path)`
(merge-db.py lines 40-92): `init` is the record set already present in the
database at `output_path` when it is opened; `all_records = base + current +
other` is then inserted with `INSERT OR IGNORE`. -/
def merge_databases (base current other init : Store) : Store :=
  insertAll init (base ++ current ++ other)

/-- The invocation in `main` (merge-db.py line 110): the output path is the
current path, so the output database initially holds exactly `current`. -/
def merge_main (base current other : Store) : Store :=
  merge_databases base current other current

/-- The row `_store_change` inserts for an accepted attempt (process-logs.py
lines 207-211): `is_committed = False`, `commit_hash = NULL`. -/
def mkStoredRecord (a : StoreAttempt) : ChangeRecord :=
  ⟨String.mk (change_hash a.filename a.file_change a.timestamp),
   String.mk a.filename, String.mk a.file_change, String.mk a.timestamp,
   String.mk a.prompt, false, none⟩

/-- Result of one incremental run of `process_new_logs` (process-logs.py lines
50-91): the Python return value (`None` on every early return, otherwise the
processed-changes count), the stored offset after the run, and the
`_store_change` attempts made by the extraction pass (`[]` when the extractor
was not run). -/
structure ProcessOutcome where
  result : Option Nat
  newPos : Nat
  ran : List StoreAttempt
deriving Repr, DecidableEq

/-- `process_new_logs` (process-logs.py lines 50-91) over a stream of `Char`
(sizes and seek offsets are modelled in characters, faithful for ASCII
streams): missing file → early return `None`; size not beyond the stored
offset → early return `None`; blank new suffix → early return `None` before
the offset is updated; otherwise parse the suffix, update the offset to the
current size and return the count. -/
def process_new_logs (fileExists : Bool) (stream : List Char) (lastPos : Nat) :
    ProcessOutcome :=
  if !fileExists then ⟨none, lastPos, []⟩
  else if stream.length ≤ lastPos then ⟨none, lastPos, []⟩
  else
    let newContent := stream.drop lastPos
    if isBlank newContent then ⟨none, lastPos, []⟩
    else ⟨some (changes_count newContent), stream.length, attemptsOf newContent⟩

/-- The exit decision of `main` (process-logs.py lines 265-272): `None` from
`process_new_logs` exits with status 1, any count exits with status 0. -/
def mainExitCode (r : Option Nat) : Nat :=
  match r with
  | none => 1
  | some _ => 0

/-- The Scenario B stream: one prompt block holding two `FILE:` sections. -/
def scenarioB : List Char :=
  ("[2024-01-01T00:00:00Z] User Prompt: fix bug\nFILE: a.py\nA1\nFILE: b.py\nB1").toList

/-- Stream whose only file section accumulates a single blank line. -/
def blankSection : List Char := ("[t1] User Prompt: p1\nFILE: a.py\n ").toList

/-- Parser state after a prompt header, a `FILE: a.py` header and one content
line: the current file is open. -/
def c7state : ParserState :=
  (runLines initState
    [("[t1] User Prompt: p1").toList, ("FILE: a.py").toList, ("X1").toList]).1

/-- A record as the current branch carries it. -/
def recOurs : ChangeRecord := ⟨"h1", "f", "c", "t", "p1", false, none⟩

/-- A record with the same `change_hash` as `recOurs` (the hash covers only
filename, content and timestamp) but a different `prompt` field. -/
def recTheirs : ChangeRecord := ⟨"h1", "f", "c", "t", "p2", false, none⟩

/-! ### Helper lemmas -/

theorem countCurrent_eq_length (s : ParserState) :
    countCurrent s = (flushCurrent s).length := by
  by_cases h : guardCurrent s <;> simp [countCurrent, flushCurrent, h]

theorem countPending_eq_length (s : ParserState) :
    countPending s = (flushPending s).length := by
  by_cases h : guardPending s <;> simp [countPending, flushPending, h]

theorem step_count_eq_length (s : ParserState) (l : Line) :
    (step s l).2.2 = (step s l).2.1.length := by
  rcases hp : parsePromptHeader l with _ | ⟨ts, p⟩
  · rcases hf : parseFileHeader l with _ | f
    · by_cases hs : isSeparator l <;> simp [step, hp, hf, hs]
    · simp [step, hp, hf, countCurrent_eq_length, countPending_eq_length]
  · simp [step, hp, countCurrent_eq_length, countPending_eq_length]

theorem runLines_count_eq_length (ls : List Line) (s : ParserState) :
    (runLines s ls).2.2 = (runLines s ls).2.1.length := by
  induction ls generalizing s with
  | nil => rfl
  | cons l ls ih => simp [runLines, step_count_eq_length, ih]

theorem hashes_append (s t : Store) : hashes (s ++ t) = hashes s ++ hashes t :=
  List.map_append _ s t

theorem hashes_cons (r : ChangeRecord) (l : Store) :
    hashes (r :: l) = r.change_hash :: hashes l := rfl

theorem mem_hashes_insertIfAbsent (s : Store) (r : ChangeRecord) (x : String) :
    x ∈ hashes (insertIfAbsent s r).1 ↔ x ∈ hashes s ∨ x = r.change_hash := by
  by_cases h : r.change_hash ∈ hashes s
  · unfold insertIfAbsent
    rw [if_pos h]
    constructor
    · exact Or.inl
    · rintro (hx | rfl)
      · exact hx
      · exact h
  · unfold insertIfAbsent
    rw [if_neg h, hashes_append]
    simp [hashes_cons, hashes]

theorem mem_hashes_insertAll (l : List ChangeRecord) (s : Store) (x : String) :
    x ∈ hashes (insertAll s l) ↔ x ∈ hashes s ∨ x ∈ hashes l := by
  induction l generalizing s with
  | nil => simp [insertAll, hashes]
  | cons r l ih =>
    show x ∈ hashes (insertAll (insertIfAbsent s r).1 l) ↔ _
    rw [ih, mem_hashes_insertIfAbsent, hashes_cons, List.mem_cons]
    tauto

theorem nodup_hashes_insertIfAbsent (s : Store) (r : ChangeRecord)
    (h : (hashes s).Nodup) : (hashes (insertIfAbsent s r).1).Nodup := by
  by_cases hm : r.change_hash ∈ hashes s
  · simpa [insertIfAbsent, if_pos hm] using h
  · simp only [insertIfAbsent, if_neg hm, hashes_append, List.nodup_append]
    refine ⟨h, by simp [hashes], ?_⟩
    intro a ha hb
    simp [hashes] at hb
    exact hm (hb ▸ ha)

theorem nodup_hashes_insertAll (l : List ChangeRecord) (s : Store)
    (h : (hashes s).Nodup) : (hashes (insertAll s l)).Nodup := by
  induction l generalizing s with
  | nil => exact h
  | cons r l ih =>
    exact ih (insertIfAbsent s r).1 (nodup_hashes_insertIfAbsent s r h)

theorem mem_insertAll_of_mem (l : List ChangeRecord) (s : Store)
    (x : ChangeRecord) (hx : x ∈ s) : x ∈ insertAll s l := by
  induction l generalizing s with
  | nil => exact hx
  | cons r l ih =>
    refine ih (insertIfAbsent s r).1 ?_
    by_cases hm : r.change_hash ∈ hashes s
    · simpa [insertIfAbsent, if_pos hm] using hx
    · simp only [insertIfAbsent, if_neg hm]
      exact List.mem_append_left _ hx

theorem mem_of_mem_insertAll (l : List ChangeRecord) (s : Store)
    (x : ChangeRecord) (hx : x ∈ insertAll s l) : x ∈ s ∨ x ∈ l := by
  induction l generalizing s with
  | nil => exact Or.inl hx
  | cons r l ih =>
    rcases ih (insertIfAbsent s r).1 hx with h1 | h1
    · by_cases hm : r.change_hash ∈ hashes s
      · rw [insertIfAbsent, if_pos hm] at h1
        exact Or.inl h1
      · rw [insertIfAbsent, if_neg hm] at h1
        rcases List.mem_append.mp h1 with h2 | h2
        · exact Or.inl h2
        · simp at h2
          simp [h2]
    · simp [h1]

/-! ### Claim theorems -/

/-- C2: for any three source stores, the record set of the merged target store
(whose location coincides with the current store) is the union of the three
sources keyed by `change_hash`: every hash present in at least one source is
present in the target, the target holds no hash twice, and every target record
comes from one of the sources. The hypothesis models the `change_hash` primary
key of the current store. -/
theorem merge_is_union_by_hash (base current other : Store)
    (h : (hashes current).Nodup) :
    (hashes (merge_main base current other)).Nodup ∧
    (∀ x, x ∈ hashes (merge_main base current other) ↔
      x ∈ hashes base ∨ x ∈ hashes current ∨ x ∈ hashes other) ∧
    (∀ r, r ∈ merge_main base current other →
      r ∈ base ∨ r ∈ current ∨ r ∈ other) := by
  unfold merge_main merge_databases
  refine ⟨nodup_hashes_insertAll _ _ h, ?_, ?_⟩
  · intro x
    rw [mem_hashes_insertAll, hashes_append, hashes_append]
    simp only [List.mem_append]
    tauto
  · intro r hr
    rcases mem_of_mem_insertAll _ _ _ hr with h1 | h1
    · exact Or.inr (Or.inl h1)
    · rcases List.mem_append.mp h1 with h2 | h2
      · rcases List.mem_append.mp h2 with h3 | h3
        · exact Or.inl h3
        · exact Or.inr (Or.inl h3)
      · exact Or.inr (Or.inr h2)

/-- Witness for `merge_is_union_by_hash` at concrete stores. -/
theorem merge_is_union_by_hash_witness :
    (hashes (merge_main [] [recOurs] [recTheirs])).Nodup ∧
    (∀ x, x ∈ hashes (merge_main [] [recOurs] [recTheirs]) ↔
      x ∈ hashes ([] : Store) ∨ x ∈ hashes [recOurs] ∨ x ∈ hashes [recTheirs]) ∧
    (∀ r, r ∈ merge_main [] [recOurs] [recTheirs] →
      r ∈ ([] : Store) ∨ r ∈ [recOurs] ∨ r ∈ [recTheirs]) :=
  merge_is_union_by_hash [] [recOurs] [recTheirs] (by decide)

/-- C3 counterexample: two sources carrying different records under the same
`change_hash` (the hash covers only filename, content and timestamp, so the
prompts may differ). Merging in order (A,B,C) keeps A's record while (C,B,A)
keeps C's, so the final record sets differ. -/
theorem merge_order_dependent_record_set :
    recOurs ∈ merge_main [recOurs] [] [recTheirs] ∧
    recOurs ∉ merge_main [recTheirs] [] [recOurs] ∧
    recOurs ≠ recTheirs := by decide

/-- C3 amended: merging in order (A,B,C) and in order (C,B,A) produces target
stores with the same set of `change_hash` values; only the non-key fields kept
for a duplicated hash can depend on the order. -/
theorem merge_hash_set_order_independent (A B C : Store) (x : String) :
    x ∈ hashes (merge_main A B C) ↔ x ∈ hashes (merge_main C B A) := by
  unfold merge_main merge_databases
  rw [mem_hashes_insertAll, mem_hashes_insertAll, hashes_append, hashes_append,
      hashes_append, hashes_append]
  simp only [List.mem_append]
  tauto

/-- C9: inserting a record whose `change_hash` is already present in the
target is a no-op that reports not-inserted and leaves the store unchanged,
and every record already present in the target store survives a whole merge
pass unchanged. -/
theorem insert_duplicate_hash_is_noop (s : Store) (r : ChangeRecord)
    (h : r.change_hash ∈ hashes s) (base current other : Store) :
    insertIfAbsent s r = (s, false) ∧
    ∀ x ∈ s, x ∈ merge_databases base current other s := by
  constructor
  · unfold insertIfAbsent
    rw [if_pos h]
  · intro x hx
    exact mem_insertAll_of_mem _ _ _ hx

/-- Witness for `insert_duplicate_hash_is_noop` at a concrete duplicate. -/
theorem insert_duplicate_hash_is_noop_witness :
    insertIfAbsent [recOurs] recTheirs = ([recOurs], false) ∧
    ∀ x ∈ [recOurs], x ∈ merge_databases [] [] [] [recOurs] :=
  insert_duplicate_hash_is_noop [recOurs] recTheirs (by decide) [] [] []

/-- C8: `change_hash` is deterministic — the same (filename, file_change,
timestamp) triple always yields the same hash — and changing exactly one of
the three components while keeping the other two fixed changes the hash input,
hence the hash (SHA-256 modelled as injective in its input string). -/
theorem change_hash_deterministic_componentwise_injective
    (f c t f' c' t' : Line) :
    change_hash f c t = change_hash f c t ∧
    (f ≠ f' → change_hash f c t ≠ change_hash f' c t) ∧
    (c ≠ c' → change_hash f c t ≠ change_hash f c' t) ∧
    (t ≠ t' → change_hash f c t ≠ change_hash f c t') := by
  refine ⟨rfl, ?_, ?_, ?_⟩
  · intro hne he
    have he' : (f ++ c) ++ t = (f' ++ c) ++ t := he
    exact hne (List.append_cancel_right (List.append_cancel_right he'))
  · intro hne he
    have he' : (f ++ c) ++ t = (f ++ c') ++ t := he
    exact hne (List.append_cancel_left (List.append_cancel_right he'))
  · intro hne he
    have he' : (f ++ c) ++ t = (f ++ c) ++ t' := he
    exact hne (List.append_cancel_left he')

/-- Witness for `change_hash_deterministic_componentwise_injective` at
concrete triples. -/
theorem change_hash_componentwise_injective_witness :
    change_hash "a".toList "bc".toList "t".toList
      = change_hash "a".toList "bc".toList "t".toList ∧
    change_hash "a".toList "bc".toList "t".toList
      ≠ change_hash "x".toList "bc".toList "t".toList ∧
    change_hash "a".toList "bc".toList "t".toList
      ≠ change_hash "a".toList "xc".toList "t".toList ∧
    change_hash "a".toList "bc".toList "t".toList
      ≠ change_hash "a".toList "bc".toList "x".toList :=
  have h := change_hash_deterministic_componentwise_injective
    "a".toList "bc".toList "t".toList "x".toList "xc".toList "x".toList
  ⟨h.1, h.2.1 (by decide), h.2.2.1 (by decide), h.2.2.2 (by decide)⟩

/-- C10: the hash input is the plain concatenation of the three fields, so the
distinct triples ('a', 'bc', '2024') and ('ab', 'c', '2024') produce the same
`change_hash`; inserting the second record after the first is ignored as a
duplicate (the two are deduplicated as one identity). -/
theorem concatenated_hash_collision :
    (("a".toList : Line), ("bc".toList : Line)) ≠ (("ab".toList : Line), ("c".toList : Line)) ∧
    change_hash "a".toList "bc".toList "2024".toList
      = change_hash "ab".toList "c".toList "2024".toList ∧
    insertIfAbsent
        (insertIfAbsent []
          (mkStoredRecord ⟨"a".toList, "bc".toList, "2024".toList, "p".toList⟩)).1
        (mkStoredRecord ⟨"ab".toList, "c".toList, "2024".toList, "p".toList⟩)
      = ((insertIfAbsent []
          (mkStoredRecord ⟨"a".toList, "bc".toList, "2024".toList, "p".toList⟩)).1,
         false) := by
  refine ⟨by decide, rfl, by decide⟩

/-- C5 counterexample: a blank line inside a file section makes the
accumulator non-empty, so the final flush calls `_store_change` and increments
`changes_count`, yet `_store_change` rejects the blank content: the returned
count is 1 while zero records are emitted. -/
theorem count_exceeds_stored_records :
    changes_count blankSection = 1 ∧ storedChanges blankSection = [] := by decide

/-- C5 amended: the count returned by an extraction pass equals the number of
flush attempts whose guard (open file, non-empty accumulator, timestamp and
prompt set) passed; a flushed section rejected during record construction
still increments the count, so the count only bounds the number of records
actually emitted from above. -/
theorem count_counts_flush_attempts (content : List Char) :
    changes_count content = (attemptsOf content).length ∧
    (storedChanges content).length ≤ changes_count content := by
  have h1 : changes_count content = (attemptsOf content).length := by
    unfold changes_count attemptsOf parseLines
    simp [runLines_count_eq_length, countCurrent_eq_length, countPending_eq_length,
      Nat.add_assoc]
  refine ⟨h1, ?_⟩
  rw [h1]
  exact List.length_filterMap_le _ _

/-- C6 counterexample: a stream of one blank character with stored offset 0
has grown past the offset, yet `process_new_logs` returns before running the
extractor and before updating the offset, which stays 0 instead of becoming
the new size 1. -/
theorem blank_suffix_skips_offset_update :
    0 < (" ".toList : List Char).length ∧
    process_new_logs true " ".toList 0 = ⟨none, 0, []⟩ := by decide

/-- C6 amended: when the current size exceeds the stored offset and the suffix
beyond the offset is not blank, the extractor runs over exactly that suffix
and the stored offset becomes the new size; when the size is not larger, or
the suffix is blank after stripping, no extraction happens and the offset is
unchanged. -/
theorem incremental_run_behavior (stream : List Char) (pos : Nat) :
    (pos < stream.length → isBlank (stream.drop pos) = false →
      process_new_logs true stream pos =
        ⟨some (changes_count (stream.drop pos)), stream.length,
         attemptsOf (stream.drop pos)⟩) ∧
    (stream.length ≤ pos → process_new_logs true stream pos = ⟨none, pos, []⟩) ∧
    (isBlank (stream.drop pos) = true →
      process_new_logs true stream pos = ⟨none, pos, []⟩) := by
  refine ⟨?_, ?_, ?_⟩
  · intro h1 h2
    unfold process_new_logs
    rw [if_neg (by simp), if_neg (by omega)]
    simp [h2]
  · intro h1
    unfold process_new_logs
    rw [if_neg (by simp), if_pos h1]
  · intro h2
    unfold process_new_logs
    by_cases h1 : stream.length ≤ pos
    · rw [if_neg (by simp), if_pos h1]
    · rw [if_neg (by simp), if_neg h1]
      simp [h2]

/-- Witness for `incremental_run_behavior` at a concrete stream. -/
theorem incremental_run_behavior_witness :
    process_new_logs true "x".toList 0 =
      ⟨some (changes_count (("x".toList).drop 0)), ("x".toList).length,
       attemptsOf (("x".toList).drop 0)⟩ ∧
    process_new_logs true "x".toList 1 = ⟨none, 1, []⟩ :=
  ⟨(incremental_run_behavior "x".toList 0).1 (by decide) (by decide),
   (incremental_run_behavior "x".toList 1).2.1 (by decide)⟩

/-- C4: evaluation at the failing inputs. A missing prompts stream, and a
stream whose size has not grown past the stored offset, both make
`process_new_logs` return `None`, which `main` turns into exit status 1 — an
error outcome, contradicting the claim that these runs succeed. -/
theorem missing_or_stale_stream_exits_error :
    process_new_logs false "abc".toList 0 = ⟨none, 0, []⟩ ∧
    mainExitCode (process_new_logs false "abc".toList 0).result = 1 ∧
    process_new_logs true "ab".toList 2 = ⟨none, 2, []⟩ ∧
    mainExitCode (process_new_logs true "ab".toList 2).result = 1 := by decide

/-- C1: evaluation at the failing input. A single prompt block with two
`FILE:` sections emits three records, not two: `a.py` is flushed at the second
`FILE:` header and flushed again at end-of-stream with `b.py`'s content lines
appended, because the loop never resets `current_file`/`file_changes` after
the mid-block flush. -/
theorem scenarioB_emits_three_records :
    changes_count scenarioB = 3 ∧
    (storedChanges scenarioB).map StoreAttempt.filename =
      ["a.py".toList, "a.py".toList, "b.py".toList] ∧
    (storedChanges scenarioB).map StoreAttempt.file_change =
      ["A1".toList, "A1\nB1".toList, "B1".toList] ∧
    (storedChanges scenarioB).map StoreAttempt.timestamp =
      (List.replicate 3 "2024-01-01T00:00:00Z".toList) ∧
    (storedChanges scenarioB).map StoreAttempt.prompt =
      (List.replicate 3 "fix bug".toList) := by decide

/-- C7 counterexample: with the current file open after `FILE: a.py` and one
content line, the line `FILE:oops` is not a prompt header, not a file header
(no space after the colon), not a separator and not blank — yet it is not
appended to the current file's accumulator, because the collection condition
excludes every line starting with `FILE:`. -/
theorem file_prefix_line_not_appended :
    c7state.current_file.isEmpty = false ∧
    parsePromptHeader "FILE:oops".toList = none ∧
    parseFileHeader "FILE:oops".toList = none ∧
    isSeparator "FILE:oops".toList = false ∧
    isBlank "FILE:oops".toList = false ∧
    (step c7state "FILE:oops".toList).1.file_changes = c7state.file_changes ∧
    c7state.file_changes ≠ c7state.file_changes ++ ["FILE:oops".toList] := by
  decide

/-- C7 amended: when a current file is open, a line that is not a prompt
header, not a file header and not a separator is appended to the current
file's accumulator exactly when it is diff-formatted, or blank, or neither
starts with `FILE:` nor matches the prompt-header prefix; in every other case
the accumulator is left unchanged. -/
theorem current_append_characterization (s : ParserState) (line : Line)
    (hopen : s.current_file.isEmpty = false)
    (hnp : parsePromptHeader line = none)
    (hnf : parseFileHeader line = none)
    (hns : isSeparator line = false) :
    ((step s line).1.file_changes = s.file_changes ++ [line] ↔
      (isDiffLine line = true ∨ isBlank line = true ∨
        (startsWithFILE line = false ∧ isPromptPrefix line = false))) ∧
    ((step s line).1.file_changes = s.file_changes ++ [line] ∨
      (step s line).1.file_changes = s.file_changes) := by
  cases hd : isDiffLine line <;> cases hb : isBlank line <;>
    cases hf2 : startsWithFILE line <;> cases hp2 : isPromptPrefix line <;>
      cases hpend : s.pending_file.isEmpty <;>
        simp [step, collectCondition, hnp, hnf, hns, hopen, hd, hb, hf2, hp2,
          hpend, List.self_eq_append_right]

/-- Witness for `current_append_characterization` at a concrete open state and
content line. -/
theorem current_append_characterization_witness :
    ((step c7state "Y2".toList).1.file_changes = c7state.file_changes ++ ["Y2".toList] ↔
      (isDiffLine "Y2".toList = true ∨ isBlank "Y2".toList = true ∨
        (startsWithFILE "Y2".toList = false ∧ isPromptPrefix "Y2".toList = false))) ∧
    ((step c7state "Y2".toList).1.file_changes = c7state.file_changes ++ ["Y2".toList] ∨
      (step c7state "Y2".toList).1.file_changes = c7state.file_changes) :=
  current_append_characterization c7state "Y2".toList (by decide) (by decide)
    (by decide) (by decide)
